import Mathlib

/-!
Verification development for the openvpn3-linux desktop-integration scripts:
the desktop session watcher (`openvpn3-desktop-session-watcher.py`) and the
session log tailer (`watch-session-log.py`).

The scripts are event-driven Python over D-Bus.  We embed them shallowly:
each Python object becomes a Lean structure holding its mutable fields, each
method a function from state to state, and every call made to the external
desktop-notification service or to a session proxy is recorded in an explicit
trace so that the externally observable behaviour is part of the state.
Python dictionaries become insertion-ordered association lists with
replace-on-assign semantics.
-/

/-! ## Status constants (openvpn3.constants)

The scripts compare the received status codes only for equality against a
fixed set of named constants.  The constructors below are the constants the
two scripts mention; `OTHER` stands for every remaining value of the external
enumeration, all of which the scripts treat identically (no branch matches).
-/

inductive StatusMajor where
  | UNSET
  | CFG_ERROR
  | CONNECTION
  | SESSION
  | PKCS11
  | PROCESS
  deriving DecidableEq, Repr

inductive StatusMinor where
  | UNSET
  | SESS_AUTH_URL
  | CONN_CONNECTED
  | CONN_RECONNECTING
  | CONN_DISCONNECTED
  | CONN_AUTH_FAILED
  | CONN_FAILED
  | PROC_STOPPED
  | OTHER
  deriving DecidableEq, Repr

inductive SessionManagerEventType where
  | SESS_CREATED
  | SESS_DESTROYED
  | OTHER
  deriving DecidableEq, Repr

/-! ## Python dictionaries

An insertion-ordered association list.  Assignment `d[k] = v` replaces the
value in place when the key exists and appends otherwise; `k in d` is
membership; `d.pop(k)` removes the key.
-/

def dictMem (d : List (String × β)) (k : String) : Bool :=
  d.any (fun kv => kv.1 = k)

def dictFind (d : List (String × β)) (k : String) : Option β :=
  (d.find? (fun kv => kv.1 = k)).map (fun kv => kv.2)

def dictInsert (d : List (String × β)) (k : String) (v : β) : List (String × β) :=
  match d with
  | [] => [(k, v)]
  | kv :: rest => if kv.1 = k then (k, v) :: rest else kv :: dictInsert rest k v

def dictPop (d : List (String × β)) (k : String) : List (String × β) :=
  d.filter (fun kv => ¬(kv.1 = k))

def dictKeys (d : List (String × β)) : List String :=
  d.map Prod.fst

/-! ## The Notify class

`Notify` wraps the `org.freedesktop.Notifications` D-Bus service.  Its state
is the two notification dictionaries plus the external service, which we
model as an id allocator (`next_id`) and the trace of method calls the
script has made on it (`calls`).

The Python method `Notify.__notify` invokes the service's `Notify` method,
binds the fresh notification id to the local variable `nid`, logs it, and
then falls off the end of the function body: it has no `return` statement,
so its value — the value the callers store into `__auth_notif[path]` /
`__reconn_notif[path]` — is `None` (here: `none`), never the service id.
-/

inductive ServiceCall where
  | notifyCall (nid : Nat) (title : String) (msg : String)
  | closeCall (nid : Nat)
  deriving DecidableEq, Repr

structure NotifyState where
  auth_notif : List (String × Option Nat)
  reconn_notif : List (String × Option Nat)
  next_id : Nat
  calls : List ServiceCall
  deriving DecidableEq, Repr

def initNotifyState : NotifyState :=
  { auth_notif := [], reconn_notif := [], next_id := 0, calls := [] }

namespace Notify

/-- `Notify.__notify(title, msg)`: calls the service's `Notify` method
(obtaining a fresh id), logs, and returns `None` — the Python function body
ends without a `return` statement. -/
def __notify (n : NotifyState) (title : String) (msg : String) :
    Option Nat × NotifyState :=
  let nid := n.next_id
  (none,
   { n with next_id := nid + 1,
            calls := n.calls ++ [ServiceCall.notifyCall nid title msg] })

/-- `Notify.__close_notify(nid)`: returns immediately when `nid` is `None`,
otherwise calls the service's `CloseNotification` method. -/
def __close_notify (n : NotifyState) (nid : Option Nat) : NotifyState :=
  match nid with
  | none => n
  | some i => { n with calls := n.calls ++ [ServiceCall.closeCall i] }

/-- `Notify.CloseNotification(group, path)`. -/
def CloseNotification (n : NotifyState) (group : String) (path : String) :
    NotifyState :=
  if group = "auth" then
    if dictMem n.auth_notif path then
      __close_notify n ((dictFind n.auth_notif path).getD none)
    else n
  else if group = "reconnect" then
    if dictMem n.reconn_notif path then
      __close_notify n ((dictFind n.reconn_notif path).getD none)
    else n
  else n

/-- `Notify.WebAuthenticate(path, url)`. -/
def WebAuthenticate (n : NotifyState) (path : String) (url : String) :
    NotifyState :=
  let n1 := if dictMem n.auth_notif path then CloseNotification n "auth" path else n
  let r := __notify n1 "OpenVPN - Authentication Required" ("Visit " ++ url)
  { r.2 with auth_notif := dictInsert r.2.auth_notif path r.1 }

/-- `Notify.Connected(path, name)`. -/
def Connected (n : NotifyState) (path : String) (name : String) : NotifyState :=
  let n1 := if dictMem n.auth_notif path then CloseNotification n "auth" path else n
  let r := __notify n1 "OpenVPN - Authentication Successful"
      ("OpenVPN session \"" ++ name ++ "\" connected successfully")
  { r.2 with auth_notif := dictInsert r.2.auth_notif path r.1 }

/-- `Notify.Reconnecting(path, name)`. -/
def Reconnecting (n : NotifyState) (path : String) (name : String) : NotifyState :=
  let n1 := if dictMem n.reconn_notif path then CloseNotification n "reconnect" path else n
  let r := __notify n1 "OpenVPN session reconnecting"
      ("Session \"" ++ name ++ "\" is reconnecting")
  { r.2 with reconn_notif := dictInsert r.2.reconn_notif path r.1 }

/-- `Notify.Reconnected(path, name)`. -/
def Reconnected (n : NotifyState) (path : String) (name : String) : NotifyState :=
  let n1 := if dictMem n.reconn_notif path then CloseNotification n "reconnect" path else n
  let r := __notify n1 "OpenVPN session reconnected"
      ("Session \"" ++ name ++ "\" reconnected successfully")
  { r.2 with reconn_notif := dictInsert r.2.reconn_notif path r.1 }

/-- `Notify.Disconnected(path, name)`. -/
def Disconnected (n : NotifyState) (path : String) (name : String) : NotifyState :=
  let n1 := if dictMem n.auth_notif path then CloseNotification n "auth" path else n
  let n2 := if dictMem n1.reconn_notif path then CloseNotification n1 "reconnect" path else n1
  let r := __notify n2 "OpenVPN session disconnected"
      ("Session \"" ++ name ++ "\" was disconnected")
  { r.2 with reconn_notif := dictInsert r.2.reconn_notif path r.1 }

end Notify

/-! ## The SessionWatcher class

A `SessionWatcher` holds a reference to the shared `Notify` object, its
session path, the session's configuration name and the `reconnecting` flag;
`subscribed` records whether the session proxy currently has a status-change
callback installed (`__init__` installs one, `Stop` installs `None`).
Because the `Notify` object is shared between all watchers of one process,
its state is passed explicitly alongside the per-watcher core.
-/

structure WatcherCore where
  path : String
  cfgname : String
  reconnecting : Bool
  subscribed : Bool
  deriving DecidableEq, Repr

structure StatusEvent where
  major : StatusMajor
  minor : StatusMinor
  msg : String
  deriving DecidableEq, Repr

namespace SessionWatcher

/-- `SessionWatcher.__init__(notify, session)`: stores the path and the
`config_name` property, clears `reconnecting`, and installs the
status-change callback on the session proxy. -/
def init (path : String) (cfgname : String) : WatcherCore :=
  { path := path, cfgname := cfgname, reconnecting := false, subscribed := true }

/-- `SessionWatcher.__evaluate_status(major, minor, msg)`: the status
dispatch.  Returns the updated watcher core and the updated shared
`Notify` state. -/
def __evaluate_status (w : WatcherCore) (n : NotifyState)
    (major : StatusMajor) (minor : StatusMinor) (msg : String) :
    WatcherCore × NotifyState :=
  if StatusMajor.SESSION = major then
    if StatusMinor.SESS_AUTH_URL = minor then
      (w, Notify.WebAuthenticate n w.path msg)
    else (w, n)
  else if StatusMajor.CONNECTION = major then
    if StatusMinor.CONN_CONNECTED = minor then
      if w.reconnecting = false then
        (w, Notify.Connected n w.path w.cfgname)
      else
        ({ w with reconnecting := false }, Notify.Reconnected n w.path w.cfgname)
    else if StatusMinor.CONN_RECONNECTING = minor then
      ({ w with reconnecting := true }, Notify.Reconnecting n w.path w.cfgname)
    else if StatusMinor.CONN_DISCONNECTED = minor then
      (w, Notify.Disconnected n w.path w.cfgname)
    else (w, n)
  else (w, n)

/-- Delivering a whole sequence of status events to one watcher, in order
(each event runs `__evaluate_status` on the state the previous one left). -/
def runEvents (s : WatcherCore × NotifyState) (evs : List StatusEvent) :
    WatcherCore × NotifyState :=
  evs.foldl (fun p e => __evaluate_status p.1 p.2 e.major e.minor e.msg) s

/-- `SessionWatcher.Stop()`: closes any open auth notification for this
session path and clears the status-change callback on the session proxy. -/
def Stop (w : WatcherCore) (n : NotifyState) : WatcherCore × NotifyState :=
  ({ w with subscribed := false }, Notify.CloseNotification n "auth" w.path)

end SessionWatcher

/-! ## The SessionManagerWatcher class

Holds the shared `Notify` state, the registry `__sessions` (a Python dict
from session path to `SessionWatcher`), and a trace `detachCalls` of the
session paths whose status-change callback was cleared by
`SessionWatcher.Stop` (the observable effect of `StatusChangeCallback(None)`
on the bus).  `cfgOf` models the external session manager: `Retrieve(path)`
yields a session whose `config_name` property is `cfgOf path`.
-/

structure MgrState where
  notify : NotifyState
  sessions : List (String × WatcherCore)
  detachCalls : List String
  deriving DecidableEq, Repr

def initMgrState : MgrState :=
  { notify := initNotifyState, sessions := [], detachCalls := [] }

structure SessionManagerEvent where
  owner : Nat
  type : SessionManagerEventType
  path : String
  deriving DecidableEq, Repr

namespace SessionManagerWatcher

/-- `SessionManagerWatcher.Register(path)`: retrieves the session object for
`path` and assigns a newly constructed `SessionWatcher` into the
`__sessions` dict under that path. -/
def Register (cfgOf : String → String) (st : MgrState) (path : String) : MgrState :=
  { st with sessions := dictInsert st.sessions path (SessionWatcher.init path (cfgOf path)) }

/-- `SessionManagerWatcher.__mgr_event_handler(event)`: owner filter, then
dispatch on the event type.  On `SESS_DESTROYED` of a tracked path the
watcher is stopped (closing its auth notification and detaching its
callback) and then popped from the registry. -/
def __mgr_event_handler (uid : Nat) (cfgOf : String → String)
    (st : MgrState) (ev : SessionManagerEvent) : MgrState :=
  if ev.owner = uid ∨ ev.owner = 0 then
    if SessionManagerEventType.SESS_CREATED = ev.type then
      Register cfgOf st ev.path
    else if SessionManagerEventType.SESS_DESTROYED = ev.type then
      if dictMem st.sessions ev.path then
        let w := (dictFind st.sessions ev.path).getD (SessionWatcher.init ev.path (cfgOf ev.path))
        let r := SessionWatcher.Stop w st.notify
        { notify := r.2,
          sessions := dictPop st.sessions ev.path,
          detachCalls := st.detachCalls ++ [w.path] }
      else st
    else st
  else st

end SessionManagerWatcher

/-- The operations that mutate the Session Manager Watcher's registry:
direct `Register` calls (startup enumeration) and incoming manager events. -/
inductive MgrOp where
  | register (path : String)
  | event (ev : SessionManagerEvent)
  deriving Repr

def applyMgrOp (uid : Nat) (cfgOf : String → String) (st : MgrState) :
    MgrOp → MgrState
  | MgrOp.register p => SessionManagerWatcher.Register cfgOf st p
  | MgrOp.event ev => SessionManagerWatcher.__mgr_event_handler uid cfgOf st ev

def runMgrOps (uid : Nat) (cfgOf : String → String) (st : MgrState)
    (ops : List MgrOp) : MgrState :=
  ops.foldl (applyMgrOp uid cfgOf) st

/-! ## The log tailer (watch-session-log.py)

`LogHandler` and `StatusHandler` are pure up to the timestamp, which we pass
in as a string.  `print` output is collected as a list of lines; quitting
the main loop becomes a boolean.  Python's `msg.split(chr(10))` is modelled
character-structurally by `pySplitLines`.
-/

/-- Splitting a character list at every newline character; every separator
produces a boundary, so leading, trailing and adjacent newlines yield empty
segments, exactly like Python's `str.split` with an explicit separator. -/
def pySplitLinesChars : List Char → List (List Char)
  | [] => [[]]
  | c :: rest =>
    let r := pySplitLinesChars rest
    if c = '\n' then [] :: r
    else
      match r with
      | [] => [[c]]
      | h :: t => (c :: h) :: t

/-- `msg.split(chr(10))` on strings. -/
def pySplitLines (s : String) : List String :=
  (pySplitLinesChars s.data).map (fun cs => String.mk cs)

/-- The 33-space indentation used for continuation lines. -/
def indent33 : String := String.mk (List.replicate 33 ' ')

/-- `LogHandler(group, catg, msg)`: keeps only the non-empty lines of the
message; prints nothing when none remain, otherwise prints the first kept
line behind the timestamp and each further kept line indented by 33
spaces. -/
def LogHandler (ts : String) (msg : String) : List String :=
  let loglines := (pySplitLines msg).filter (fun l => 0 < l.length)
  if loglines.length < 1 then []
  else
    (ts ++ " [LOG] " ++ loglines.headD "")
      :: (loglines.drop 1).map (fun line => indent33 ++ line)

def statusMajorStr : StatusMajor → String
  | StatusMajor.UNSET => "StatusMajor.UNSET"
  | StatusMajor.CFG_ERROR => "StatusMajor.CFG_ERROR"
  | StatusMajor.CONNECTION => "StatusMajor.CONNECTION"
  | StatusMajor.SESSION => "StatusMajor.SESSION"
  | StatusMajor.PKCS11 => "StatusMajor.PKCS11"
  | StatusMajor.PROCESS => "StatusMajor.PROCESS"

def statusMinorStr : StatusMinor → String
  | StatusMinor.UNSET => "StatusMinor.UNSET"
  | StatusMinor.SESS_AUTH_URL => "StatusMinor.SESS_AUTH_URL"
  | StatusMinor.CONN_CONNECTED => "StatusMinor.CONN_CONNECTED"
  | StatusMinor.CONN_RECONNECTING => "StatusMinor.CONN_RECONNECTING"
  | StatusMinor.CONN_DISCONNECTED => "StatusMinor.CONN_DISCONNECTED"
  | StatusMinor.CONN_AUTH_FAILED => "StatusMinor.CONN_AUTH_FAILED"
  | StatusMinor.CONN_FAILED => "StatusMinor.CONN_FAILED"
  | StatusMinor.PROC_STOPPED => "StatusMinor.PROC_STOPPED"
  | StatusMinor.OTHER => "StatusMinor.OTHER"

/-- The line `StatusHandler` prints for an event. -/
def statusLine (ts : String) (major : StatusMajor) (minor : StatusMinor)
    (msg : String) : String :=
  ts ++ " [STATUS] (" ++ statusMajorStr major ++ ", " ++ statusMinorStr minor
     ++ ") " ++ msg

structure StatusHandlerResult where
  printed : List String
  quit : Bool
  deriving DecidableEq, Repr

/-- `StatusHandler(major, minor, msg)`: prints the event unconditionally,
then runs four independent checks, each of which calls `mainloop.quit()`
when its (major, minor) pair matches. -/
def StatusHandler (ts : String) (major : StatusMajor) (minor : StatusMinor)
    (msg : String) : StatusHandlerResult :=
  { printed := [statusLine ts major minor msg],
    quit :=
      (decide (StatusMajor.SESSION = major) && decide (StatusMinor.PROC_STOPPED = minor))
      || (decide (StatusMajor.CONNECTION = major) && decide (StatusMinor.CONN_AUTH_FAILED = minor))
      || (decide (StatusMajor.CONNECTION = major) && decide (StatusMinor.CONN_FAILED = minor))
      || (decide (StatusMajor.CONNECTION = major) && decide (StatusMinor.CONN_DISCONNECTED = minor)) }

/-- What the log tailer's `__main__` block has done by the time the run loop
would start: either an `argparse` usage error (message, exit status 2,
nothing retrieved, nothing subscribed) or a normal start (session retrieved,
log and status callbacks installed). -/
structure TailerStartup where
  usage_error : Option String
  exit_code : Option Nat
  retrieved : Option String
  log_subscribed : Bool
  status_subscribed : Bool
  deriving DecidableEq, Repr

def tailerUsageError (msg : String) : TailerStartup :=
  { usage_error := some msg, exit_code := some 2, retrieved := none,
    log_subscribed := false, status_subscribed := false }

def tailerProceed (path : String) : TailerStartup :=
  { usage_error := none, exit_code := none, retrieved := some path,
    log_subscribed := true, status_subscribed := true }

/-- The session-resolution part of `watch-session-log.py`'s `__main__`:
`config` and `path` are the parsed option values, `lookup` is the session
manager's `LookupConfigName`.  `optparser.error` prints its usage message
and exits with status 2 before any session is retrieved or any callback
installed. -/
def watchSessionLogStartup (config : Option String) (path : Option String)
    (lookup : String → List String) : TailerStartup :=
  match config with
  | some name =>
    let search := lookup name
    if search.length = 0 then
      tailerUsageError
        ("No VPN session found with the \"" ++ name ++ "\" configuration name")
    else if search.length > 1 then
      tailerUsageError
        ("More than one running VPN session was found under the name \""
          ++ name ++ "\". Use --path instead")
    else
      tailerProceed (search.headD "")
  | none =>
    match path with
    | some p => tailerProceed p
    | none => tailerUsageError "One of --config or --path must be provided"

/-! ## Spec-side predicates for the reconnect flag -/

def isReconnectingEvent (e : StatusEvent) : Bool :=
  decide (e.major = StatusMajor.CONNECTION) && decide (e.minor = StatusMinor.CONN_RECONNECTING)

def isConnectedEvent (e : StatusEvent) : Bool :=
  decide (e.major = StatusMajor.CONNECTION) && decide (e.minor = StatusMinor.CONN_CONNECTED)

def isDisconnectedEvent (e : StatusEvent) : Bool :=
  decide (e.major = StatusMajor.CONNECTION) && decide (e.minor = StatusMinor.CONN_DISCONNECTED)

/-- The claim's predicate, following its words: the sequence contains a
CONNECTION/RECONNECTING event that is not followed by any later
CONNECTION/CONNECTED or CONNECTION/DISCONNECTED event. -/
def pendingReconnectClaim : List StatusEvent → Bool
  | [] => false
  | e :: rest =>
    (isReconnectingEvent e
       && !(rest.any (fun x => isConnectedEvent x || isDisconnectedEvent x)))
    || pendingReconnectClaim rest

/-- The amended predicate: the sequence contains a CONNECTION/RECONNECTING
event that is not followed by any later CONNECTION/CONNECTED event
(CONNECTION/DISCONNECTED does not clear the flag). -/
def pendingReconnectAmended : List StatusEvent → Bool
  | [] => false
  | e :: rest =>
    (isReconnectingEvent e && !(rest.any isConnectedEvent))
    || pendingReconnectAmended rest

/-! ## Theorems -/

/-- How one status event moves the `reconnecting` flag: CONNECTION/RECONNECTING
sets it, CONNECTION/CONNECTED clears it (on both branches of the inner `if`),
every other event — including CONNECTION/DISCONNECTED — leaves it alone. -/
theorem evaluate_status_reconnecting (w : WatcherCore) (n : NotifyState)
    (major : StatusMajor) (minor : StatusMinor) (msg : String) :
    ((SessionWatcher.__evaluate_status w n major minor msg).1).reconnecting =
      (if major = StatusMajor.CONNECTION ∧ minor = StatusMinor.CONN_RECONNECTING then true
       else if major = StatusMajor.CONNECTION ∧ minor = StatusMinor.CONN_CONNECTED then false
       else w.reconnecting) := by
  cases major <;> cases minor <;>
    simp [SessionWatcher.__evaluate_status] <;>
    (cases hw : w.reconnecting <;> simp [hw])

/-- The `reconnecting` flag after a sequence of events, from an arbitrary
start: true exactly when the sequence holds a RECONNECTING event with no
later CONNECTED event, or the flag was already set and no CONNECTED event
occurs at all. -/
theorem runEvents_reconnecting (evs : List StatusEvent) :
    ∀ p : WatcherCore × NotifyState,
      ((SessionWatcher.runEvents p evs).1).reconnecting =
        (pendingReconnectAmended evs
          || (p.1.reconnecting && !(evs.any isConnectedEvent))) := by
  induction evs with
  | nil =>
    intro p
    simp [SessionWatcher.runEvents, pendingReconnectAmended]
  | cons e rest ih =>
    intro p
    have hstep : SessionWatcher.runEvents p (e :: rest)
        = SessionWatcher.runEvents
            (SessionWatcher.__evaluate_status p.1 p.2 e.major e.minor e.msg) rest := rfl
    rw [hstep, ih, evaluate_status_reconnecting]
    obtain ⟨ma, mi, m⟩ := e
    cases ma <;> cases mi <;>
      simp [pendingReconnectAmended, isReconnectingEvent, isConnectedEvent] <;>
      (cases p.1.reconnecting <;>
        cases hrest : rest.any isConnectedEvent <;>
        cases hpend : pendingReconnectAmended rest <;> simp [hrest, hpend])

/-- C1 counterexample: starting from the initial state, the sequence
[CONNECTION/RECONNECTING, CONNECTION/DISCONNECTED] leaves the watcher's
`reconnecting` flag true, while the claim's predicate — RECONNECTING not
followed by CONNECTED or DISCONNECTED — is false on that sequence, so the
claimed equivalence fails on this input. -/
theorem reconnect_flag_disconnected_counterexample :
    ((SessionWatcher.runEvents (SessionWatcher.init "p" "c", initNotifyState)
        [⟨StatusMajor.CONNECTION, StatusMinor.CONN_RECONNECTING, ""⟩,
         ⟨StatusMajor.CONNECTION, StatusMinor.CONN_DISCONNECTED, ""⟩]).1).reconnecting = true
    ∧ pendingReconnectClaim
        [⟨StatusMajor.CONNECTION, StatusMinor.CONN_RECONNECTING, ""⟩,
         ⟨StatusMajor.CONNECTION, StatusMinor.CONN_DISCONNECTED, ""⟩] = false := by
  decide

/-- C1 (amended): for every finite sequence of status events delivered to a
Session Watcher starting in its initial state (`reconnecting = false`), the
`reconnecting` flag afterwards is true iff the sequence contains a
CONNECTION/RECONNECTING event that is not followed by any later
CONNECTION/CONNECTED event; CONNECTION/DISCONNECTED leaves the flag
unchanged. -/
theorem reconnect_flag_iff_pending_amended (path cfgname : String)
    (evs : List StatusEvent) :
    ((SessionWatcher.runEvents (SessionWatcher.init path cfgname, initNotifyState)
        evs).1).reconnecting
      = pendingReconnectAmended evs := by
  rw [runEvents_reconnecting]
  simp [SessionWatcher.init]

/-- C2: evaluating `Notify.Reconnecting` twice for the same session path on a
fresh `Notify`: the desktop service receives two `Notify` calls and no
`CloseNotification` call, and the value stored under the (reconnect, path)
key is `None` rather than the id the service returned — `__notify` has no
`return` statement, so the second notification never closes the first. -/
theorem notify_reconnecting_twice_no_close :
    (Notify.Reconnecting (Notify.Reconnecting initNotifyState "p" "vpn") "p" "vpn").calls
      = [ServiceCall.notifyCall 0 "OpenVPN session reconnecting"
           "Session \"vpn\" is reconnecting",
         ServiceCall.notifyCall 1 "OpenVPN session reconnecting"
           "Session \"vpn\" is reconnecting"]
    ∧ dictFind (Notify.Reconnecting (Notify.Reconnecting initNotifyState "p" "vpn")
          "p" "vpn").reconn_notif "p" = some none := by
  decide

/-- C3: delivering [CONNECTION/RECONNECTING, CONNECTION/CONNECTED] to a fresh
watcher for session "work-vpn" leaves the `reconnecting` flag false and emits
a "reconnecting" and then a "reconnected" notification (no "connected" one),
but the desktop service receives no `CloseNotification` call in between: the
stored notification id is `None`, so the close of the reconnect notification
claimed by the scenario never happens. -/
theorem reconnect_scenario_trace_eval :
    (SessionWatcher.runEvents
        (SessionWatcher.init "/net/openvpn/v3/sessions/1" "work-vpn", initNotifyState)
        [⟨StatusMajor.CONNECTION, StatusMinor.CONN_RECONNECTING, ""⟩,
         ⟨StatusMajor.CONNECTION, StatusMinor.CONN_CONNECTED, ""⟩]).2.calls
      = [ServiceCall.notifyCall 0 "OpenVPN session reconnecting"
           "Session \"work-vpn\" is reconnecting",
         ServiceCall.notifyCall 1 "OpenVPN session reconnected"
           "Session \"work-vpn\" reconnected successfully"]
    ∧ (SessionWatcher.runEvents
        (SessionWatcher.init "/net/openvpn/v3/sessions/1" "work-vpn", initNotifyState)
        [⟨StatusMajor.CONNECTION, StatusMinor.CONN_RECONNECTING, ""⟩,
         ⟨StatusMajor.CONNECTION, StatusMinor.CONN_CONNECTED, ""⟩]).1.reconnecting = false := by
  decide

/-- C7: on a fresh watcher for path "p", after `WebAuthenticate` has opened
an auth notification (its key is present in `__auth_notif`), `Stop()` clears
the status-change callback but sends no `CloseNotification` call to the
service — the stored id is `None` — and on a state with no outstanding
notification at all, `Stop()` likewise makes no service call. -/
theorem stop_eval_no_service_close :
    (let n1 := Notify.WebAuthenticate initNotifyState "p" "http://auth.example/"
     dictMem n1.auth_notif "p" = true
       ∧ (SessionWatcher.Stop (SessionWatcher.init "p" "c") n1).1.subscribed = false
       ∧ (SessionWatcher.Stop (SessionWatcher.init "p" "c") n1).2.calls = n1.calls)
    ∧ (SessionWatcher.Stop (SessionWatcher.init "q" "c") initNotifyState).2.calls = [] := by
  decide

/-- C4: the log tailer's status handler prints exactly one line for every
status event, and requests termination of the run loop exactly when the
(major, minor) pair is SESSION/PROC_STOPPED, CONNECTION/CONN_AUTH_FAILED,
CONNECTION/CONN_FAILED or CONNECTION/CONN_DISCONNECTED; on every other pair
the loop keeps running. -/
theorem status_handler_prints_and_quit_iff (ts : String) (major : StatusMajor)
    (minor : StatusMinor) (msg : String) :
    (StatusHandler ts major minor msg).printed = [statusLine ts major minor msg]
    ∧ ((StatusHandler ts major minor msg).quit = true ↔
        ((major = StatusMajor.SESSION ∧ minor = StatusMinor.PROC_STOPPED)
          ∨ (major = StatusMajor.CONNECTION ∧ minor = StatusMinor.CONN_AUTH_FAILED)
          ∨ (major = StatusMajor.CONNECTION ∧ minor = StatusMinor.CONN_FAILED)
          ∨ (major = StatusMajor.CONNECTION ∧ minor = StatusMinor.CONN_DISCONNECTED))) := by
  refine ⟨rfl, ?_⟩
  cases major <;> cases minor <;> simp [StatusHandler]

theorem dictFind_dictInsert (d : List (String × β)) (k : String) (v : β) :
    dictFind (dictInsert d k v) k = some v := by
  induction d with
  | nil => simp [dictInsert, dictFind]
  | cons kv rest ih =>
    by_cases hk : kv.1 = k
    · simp [dictInsert, hk, dictFind]
    · simp only [dictInsert, hk, if_false]
      simpa [dictFind, List.find?_cons, hk] using ih

theorem dictKeys_dictInsert_mem (d : List (String × β)) (k : String) (v : β)
    (h : dictMem d k = true) : dictKeys (dictInsert d k v) = dictKeys d := by
  induction d with
  | nil => simp [dictMem] at h
  | cons kv rest ih =>
    by_cases hk : kv.1 = k
    · simp [dictInsert, hk, dictKeys]
    · have hr : dictMem rest k = true := by
        simpa [dictMem, hk] using h
      simp [dictInsert, hk, dictKeys] at ih ⊢
      exact ih hr

theorem dictKeys_dictInsert_not_mem (d : List (String × β)) (k : String) (v : β)
    (h : dictMem d k = false) : dictKeys (dictInsert d k v) = dictKeys d ++ [k] := by
  induction d with
  | nil => simp [dictInsert, dictKeys]
  | cons kv rest ih =>
    have hk : ¬(kv.1 = k) := by
      intro he
      simp [dictMem, he] at h
    have hr : dictMem rest k = false := by
      simpa [dictMem, hk] using h
    simp [dictInsert, hk, dictKeys] at ih ⊢
    exact ih hr

theorem not_mem_dictKeys (d : List (String × β)) (k : String)
    (h : dictMem d k = false) : k ∉ dictKeys d := by
  induction d with
  | nil => simp [dictKeys]
  | cons kv rest ih =>
    have hk : ¬(kv.1 = k) := by
      intro he
      simp [dictMem, he] at h
    have hr : dictMem rest k = false := by
      simpa [dictMem, hk] using h
    simp only [dictKeys, List.map_cons, List.mem_cons] at ih ⊢
    rintro (heq | hmem)
    · exact hk heq.symm
    · exact ih hr hmem

theorem nodup_dictKeys_dictInsert (d : List (String × β)) (k : String) (v : β)
    (h : (dictKeys d).Nodup) : (dictKeys (dictInsert d k v)).Nodup := by
  by_cases hm : dictMem d k
  · rw [dictKeys_dictInsert_mem d k v hm]
    exact h
  · rw [dictKeys_dictInsert_not_mem d k v (by simpa using hm)]
    have hnm := not_mem_dictKeys d k (by simpa using hm)
    simp [List.nodup_append, h, hnm]

theorem nodup_dictKeys_dictPop (d : List (String × β)) (k : String)
    (h : (dictKeys d).Nodup) : (dictKeys (dictPop d k)).Nodup := by
  have hsub : List.Sublist (dictKeys (dictPop d k)) (dictKeys d) :=
    List.Sublist.map Prod.fst (List.filter_sublist d)
  exact List.Nodup.sublist hsub h

/-- The manager event handler never breaks key uniqueness of the registry. -/
theorem mgr_event_handler_nodup (uid : Nat) (cfgOf : String → String)
    (st : MgrState) (ev : SessionManagerEvent)
    (h : (dictKeys st.sessions).Nodup) :
    (dictKeys (SessionManagerWatcher.__mgr_event_handler uid cfgOf st ev).sessions).Nodup := by
  unfold SessionManagerWatcher.__mgr_event_handler SessionManagerWatcher.Register
  split
  · split
    · exact nodup_dictKeys_dictInsert _ _ _ h
    · split
      · split
        · exact nodup_dictKeys_dictPop _ _ h
        · exact h
      · exact h
  · exact h

/-- Any sequence of `Register` calls and manager events keeps registry keys
unique, starting from a state with unique keys. -/
theorem runMgrOps_nodup (uid : Nat) (cfgOf : String → String) (ops : List MgrOp) :
    ∀ st : MgrState, (dictKeys st.sessions).Nodup →
      (dictKeys (runMgrOps uid cfgOf st ops).sessions).Nodup := by
  induction ops with
  | nil =>
    intro st h
    simpa [runMgrOps] using h
  | cons op rest ih =>
    intro st h
    have hstep : runMgrOps uid cfgOf st (op :: rest)
        = runMgrOps uid cfgOf (applyMgrOp uid cfgOf st op) rest := rfl
    rw [hstep]
    apply ih
    cases op with
    | register p => exact nodup_dictKeys_dictInsert _ _ _ h
    | event ev => exact mgr_event_handler_nodup uid cfgOf st ev h

/-- C5: a manager event whose owner is neither the current uid nor the
superuser (uid 0) leaves the Session Manager Watcher's state — in particular
its registry — completely unchanged, whatever the event's type and path. -/
theorem mgr_event_other_owner_no_mutation (uid : Nat) (cfgOf : String → String)
    (st : MgrState) (ev : SessionManagerEvent)
    (howner : ev.owner ≠ uid) (hroot : ev.owner ≠ 0) :
    SessionManagerWatcher.__mgr_event_handler uid cfgOf st ev = st
    ∧ (SessionManagerWatcher.__mgr_event_handler uid cfgOf st ev).sessions
        = st.sessions := by
  have hcond : ¬(ev.owner = uid ∨ ev.owner = 0) := by
    rintro (h | h)
    · exact howner h
    · exact hroot h
  constructor
  · simp [SessionManagerWatcher.__mgr_event_handler, hcond]
  · simp [SessionManagerWatcher.__mgr_event_handler, hcond]

/-- Witness for C5: a creation event owned by uid 7 is ignored when the
process runs as uid 1000. -/
theorem mgr_event_other_owner_no_mutation_witness :
    SessionManagerWatcher.__mgr_event_handler 1000 (fun _ => "cfg") initMgrState
        ⟨7, SessionManagerEventType.SESS_CREATED, "/net/openvpn/v3/sessions/9"⟩
      = initMgrState
    ∧ (SessionManagerWatcher.__mgr_event_handler 1000 (fun _ => "cfg") initMgrState
        ⟨7, SessionManagerEventType.SESS_CREATED, "/net/openvpn/v3/sessions/9"⟩).sessions
      = initMgrState.sessions :=
  mgr_event_other_owner_no_mutation 1000 (fun _ => "cfg") initMgrState
    ⟨7, SessionManagerEventType.SESS_CREATED, "/net/openvpn/v3/sessions/9"⟩
    (by decide) (by decide)

/-- C6: after any sequence of `Register` calls and manager events from the
initial (empty) registry, every session path is a registry key at most once;
and `Register` on a path already present keeps the key set unchanged while
the entry now holds the newly constructed watcher — an overwrite, not a
duplicate. -/
theorem registry_keys_unique_and_register_overwrites (uid : Nat)
    (cfgOf : String → String) (ops : List MgrOp) (st : MgrState) (p : String)
    (hmem : dictMem st.sessions p = true) :
    (dictKeys (runMgrOps uid cfgOf initMgrState ops).sessions).Nodup
    ∧ dictKeys (SessionManagerWatcher.Register cfgOf st p).sessions
        = dictKeys st.sessions
    ∧ dictFind (SessionManagerWatcher.Register cfgOf st p).sessions p
        = some (SessionWatcher.init p (cfgOf p)) := by
  refine ⟨runMgrOps_nodup uid cfgOf ops initMgrState (by simp [initMgrState, dictKeys]), ?_, ?_⟩
  · exact dictKeys_dictInsert_mem st.sessions p (SessionWatcher.init p (cfgOf p)) hmem
  · exact dictFind_dictInsert st.sessions p (SessionWatcher.init p (cfgOf p))

/-- Witness for C6: registering "/s/1" twice from the start leaves a
single-key registry holding the second watcher. -/
theorem registry_keys_unique_and_register_overwrites_witness :
    (dictKeys (runMgrOps 1000 (fun _ => "work")
        initMgrState [MgrOp.register "/s/1", MgrOp.register "/s/1"]).sessions).Nodup
    ∧ dictKeys (SessionManagerWatcher.Register (fun _ => "work")
        (SessionManagerWatcher.Register (fun _ => "work") initMgrState "/s/1") "/s/1").sessions
      = dictKeys (SessionManagerWatcher.Register (fun _ => "work") initMgrState "/s/1").sessions
    ∧ dictFind (SessionManagerWatcher.Register (fun _ => "work")
        (SessionManagerWatcher.Register (fun _ => "work") initMgrState "/s/1") "/s/1").sessions "/s/1"
      = some (SessionWatcher.init "/s/1" "work") :=
  registry_keys_unique_and_register_overwrites 1000 (fun _ => "work")
    [MgrOp.register "/s/1", MgrOp.register "/s/1"]
    (SessionManagerWatcher.Register (fun _ => "work") initMgrState "/s/1") "/s/1"
    (by decide)

/-- C10: `Register` on a path already in the registry replaces that registry
entry with a freshly constructed watcher and touches nothing else: the
shared notification state is unmodified (so the old watcher's auth
notification is not closed) and no status-change callback is cleared (so the
old watcher's subscription is not detached); `Stop` is never run on the
replaced watcher. -/
theorem register_existing_path_frame (cfgOf : String → String) (st : MgrState)
    (p : String) (hmem : dictMem st.sessions p = true) :
    (SessionManagerWatcher.Register cfgOf st p).notify = st.notify
    ∧ (SessionManagerWatcher.Register cfgOf st p).detachCalls = st.detachCalls
    ∧ (SessionManagerWatcher.Register cfgOf st p).sessions
        = dictInsert st.sessions p (SessionWatcher.init p (cfgOf p))
    ∧ dictKeys (SessionManagerWatcher.Register cfgOf st p).sessions
        = dictKeys st.sessions := by
  exact ⟨rfl, rfl, rfl,
    dictKeys_dictInsert_mem st.sessions p (SessionWatcher.init p (cfgOf p)) hmem⟩

/-- Witness for C10: re-registering "/s/1" on a registry that holds it. -/
theorem register_existing_path_frame_witness :
    (SessionManagerWatcher.Register (fun _ => "work")
        { notify := initNotifyState,
          sessions := [("/s/1", SessionWatcher.init "/s/1" "work")],
          detachCalls := [] } "/s/1").notify = initNotifyState
    ∧ (SessionManagerWatcher.Register (fun _ => "work")
        { notify := initNotifyState,
          sessions := [("/s/1", SessionWatcher.init "/s/1" "work")],
          detachCalls := [] } "/s/1").detachCalls = ([] : List String)
    ∧ (SessionManagerWatcher.Register (fun _ => "work")
        { notify := initNotifyState,
          sessions := [("/s/1", SessionWatcher.init "/s/1" "work")],
          detachCalls := [] } "/s/1").sessions
      = dictInsert [("/s/1", SessionWatcher.init "/s/1" "work")] "/s/1"
          (SessionWatcher.init "/s/1" "work")
    ∧ dictKeys (SessionManagerWatcher.Register (fun _ => "work")
        { notify := initNotifyState,
          sessions := [("/s/1", SessionWatcher.init "/s/1" "work")],
          detachCalls := [] } "/s/1").sessions
      = dictKeys [("/s/1", SessionWatcher.init "/s/1" "work")] :=
  register_existing_path_frame (fun _ => "work")
    { notify := initNotifyState,
      sessions := [("/s/1", SessionWatcher.init "/s/1" "work")],
      detachCalls := [] } "/s/1" (by decide)

/-- C8: with the config-name option, a lookup that resolves to zero session
paths makes the log tailer exit through an `argparse` usage error (exit
status 2) whose message names the configuration, and a lookup that resolves
to more than one path exits the same way with the message telling the user
to use the path option instead; in both cases no session is retrieved and no
log or status-change callback is installed. -/
theorem tailer_config_lookup_usage_errors (name : String) (popt : Option String)
    (lookup0 lookup2 : String → List String)
    (h0 : lookup0 name = [])
    (h2 : 2 ≤ (lookup2 name).length) :
    watchSessionLogStartup (some name) popt lookup0
      = tailerUsageError
          ("No VPN session found with the \"" ++ name ++ "\" configuration name")
    ∧ watchSessionLogStartup (some name) popt lookup2
      = tailerUsageError
          ("More than one running VPN session was found under the name \""
            ++ name ++ "\". Use --path instead") := by
  constructor
  · simp [watchSessionLogStartup, h0]
  · have hne : ¬((lookup2 name).length = 0) := by omega
    have hgt : (lookup2 name).length > 1 := by omega
    simp [watchSessionLogStartup, hne, hgt]

/-- Witness for C8: `--config foo` with zero and with two matching
sessions. -/
theorem tailer_config_lookup_usage_errors_witness :
    watchSessionLogStartup (some "foo") none (fun _ => [])
      = tailerUsageError "No VPN session found with the \"foo\" configuration name"
    ∧ watchSessionLogStartup (some "foo") none (fun _ => ["/s/1", "/s/2"])
      = tailerUsageError
          "More than one running VPN session was found under the name \"foo\". Use --path instead" := by
  have h := tailer_config_lookup_usage_errors "foo" none (fun _ => [])
    (fun _ => ["/s/1", "/s/2"]) rfl (by decide)
  exact ⟨by simpa using h.1, by simpa using h.2⟩

/-- C9: the log handler prints exactly one line per non-empty segment of the
newline-split message — interior empty lines are discarded just like leading
and trailing ones — and prints nothing at all (not even a timestamp line)
exactly when every segment of the split is empty, i.e. when the message is
empty or consists only of newline characters. -/
theorem log_handler_drops_empty_lines (ts msg : String) :
    (LogHandler ts msg).length
      = ((pySplitLines msg).filter (fun l => 0 < l.length)).length
    ∧ (LogHandler ts msg = [] ↔ ∀ l ∈ pySplitLines msg, l.length = 0) := by
  have hlen : (LogHandler ts msg).length
      = ((pySplitLines msg).filter (fun l => 0 < l.length)).length := by
    simp only [LogHandler]
    split
    · rename_i h
      simp only [List.length_nil]
      omega
    · rename_i h
      simp only [List.length_cons, List.length_map, List.length_drop]
      omega
  refine ⟨hlen, ?_⟩
  have hfilter : ((pySplitLines msg).filter (fun l => 0 < l.length)) = []
      ↔ ∀ l ∈ pySplitLines msg, l.length = 0 := by
    rw [List.filter_eq_nil_iff]
    constructor
    · intro h l hl
      have hx := h l hl
      simp at hx
      omega
    · intro h l hl
      simp [h l hl]
  rw [← List.length_eq_zero, hlen, List.length_eq_zero, hfilter]
